import Mathlib

/-!
Shallow embedding of the wellbeing analysis backend
(`fetch_agents.py`, `exampleAgents.py`, `app.py`).

Numbers are modelled by `ℚ` (the Python code computes with IEEE doubles; all
claims under verification concern threshold comparisons and counts that are
exact at this idealisation).  A value that can be the float `NaN` is modelled
by `Option ℚ` with `none` standing for `NaN`.  the Python `int(...)` truncation
toward zero is `pyTrunc`, the Python bankers-rounding `round(x, 2)` is `pyRound2`.
Free-text description fields of stressors/recommendations that no claim
depends on are not modelled; `session_id` and `analysis_timestamp`
(a fresh uuid and wall-clock time) are likewise outside the embedding.
-/

/- The rational-number operations are sealed `@[irreducible]` by Batteries;
re-open them so that concrete runs of the embedded pipeline reduce inside
`decide`/`rfl` proofs. -/
set_option allowUnsafeReducibility true
attribute [local semireducible] Rat.add Rat.sub Rat.mul Rat.inv Rat.div Rat.ofScientific

namespace Wellbeing

/-- Python `int(q)`: truncation toward zero. -/
def pyTrunc (q : ℚ) : ℤ :=
  if 0 ≤ q then ⌊q⌋ else -⌊-q⌋

/-- Round a rational to the nearest integer, ties to even
(the rounding mode of the Python builtin `round`). -/
def roundHalfEven (q : ℚ) : ℤ :=
  let f := ⌊q⌋
  if q - f < 1/2 then f
  else if (1:ℚ)/2 < q - f then f + 1
  else if f % 2 = 0 then f else f + 1

/-- Python `round(q, 2)` (two decimal places, ties to even). -/
def pyRound2 (q : ℚ) : ℚ :=
  (roundHalfEven (100 * q) : ℚ) / 100

/-- Mean of a column.  The sources only take means of nonempty columns
(`pd.DataFrame([])` has no columns at all), so the `/ 0 = 0` convention of
`ℚ` is never observed. -/
def mean (l : List ℚ) : ℚ := l.sum / (l.length : ℚ)

/-- Centered cross-product sum `Σ (xᵢ - x̄)(yᵢ - ȳ)` over paired rows;
the building block of Pearson correlation and of the least-squares slope. -/
def covSum (x y : List ℚ) : ℚ :=
  ((x.zip y).map (fun p => (p.1 - mean x) * (p.2 - mean y))).sum

/-- Stand-in for the real square root used only inside `sampleStd` for two or
more rows: `√(a/b)` is approximated by `⌊√(a·b)⌋/b`.  No claim under
verification depends on the numeric value of a standard deviation when it is
defined — only on whether it is `NaN` — so the approximation is inert. -/
def ratSqrt (q : ℚ) : ℚ :=
  (Nat.sqrt (q.num.toNat * q.den) : ℚ) / (q.den : ℚ)

/-- Sample variance (`ddof = 1`, as `pandas.Series.std`); `none` models the
`NaN` that pandas returns for fewer than two rows. -/
def sampleVar (l : List ℚ) : Option ℚ :=
  if l.length < 2 then none
  else some (((l.map (fun x => (x - mean l) ^ 2)).sum) / ((l.length : ℚ) - 1))

/-- Model of `pandas.Series.std()` — `none` is `NaN` (fewer than two rows). -/
def sampleStd (l : List ℚ) : Option ℚ :=
  (sampleVar l).map ratSqrt

/-- Python `min(a, b)` where `b` may be `NaN` (`none`): CPython keeps the
first argument unless the second compares strictly smaller, and every
comparison against `NaN` is false — so `min(a, NaN) = a`. -/
def pyMinNan (a : ℚ) (b : Option ℚ) : Option ℚ :=
  match b with
  | none => some a
  | some x => some (if x < a then x else a)

/-- Least element of a nonempty column (`Series.min`). -/
def listMin (l : List ℚ) : ℚ :=
  match l with
  | [] => 0
  | x :: xs => xs.foldl min x

/-- Greatest element of a nonempty column (`Series.max`). -/
def listMax (l : List ℚ) : ℚ :=
  match l with
  | [] => 0
  | x :: xs => xs.foldl max x

/-- One daily record as posted to `/analyze` (`app.py:WellbeingEntry`); the
`date` string is only parsed, never used by the analysis, and is omitted. -/
structure Entry where
  mood : ℚ
  energy : ℚ
  steps : ℚ
  screenTimeMinutes : ℚ
  sleepHours : ℚ
  heartRate : ℚ
  caloriesBurned : ℚ
  waterIntake : ℚ
  dailyJournal : String
  emotionalState : String
deriving Repr, DecidableEq

/-- The `pandas.DataFrame` built by `analyze_data`: a column is `none` when
absent (every analysis step gates on column presence).  `nrows` is
`len(df)`. -/
structure DataFrame where
  mood : Option (List ℚ)
  energy : Option (List ℚ)
  steps : Option (List ℚ)
  screenTimeMinutes : Option (List ℚ)
  sleepHours : Option (List ℚ)
  heartRate : Option (List ℚ)
  caloriesBurned : Option (List ℚ)
  waterIntake : Option (List ℚ)
  dailyJournal : Option (List String)
  emotionalState : Option (List String)
  nrows : ℕ
deriving Repr

/-- Model of `pd.DataFrame(entries)`: an empty entry list produces a frame with no
columns at all; otherwise every `Entry` field becomes a column. -/
def toDataFrame (entries : List Entry) : DataFrame :=
  match entries with
  | [] => ⟨none, none, none, none, none, none, none, none, none, none, 0⟩
  | _ =>
    ⟨some (entries.map (·.mood)), some (entries.map (·.energy)),
     some (entries.map (·.steps)), some (entries.map (·.screenTimeMinutes)),
     some (entries.map (·.sleepHours)), some (entries.map (·.heartRate)),
     some (entries.map (·.caloriesBurned)), some (entries.map (·.waterIntake)),
     some (entries.map (·.dailyJournal)), some (entries.map (·.emotionalState)),
     entries.length⟩

/-- Fuel-bounded scanner behind `countOcc`; with `s.length ≤ fuel` the fuel
never runs out before the text does, so `countOcc` below computes the Python
`str.count` exactly. -/
def countOccAux (fuel : ℕ) (p s : List Char) : ℕ :=
  match fuel, s with
  | 0, _ => 0
  | _ + 1, [] => 0
  | fuel + 1, c :: rest =>
    if (c :: rest).take p.length = p ∧ p ≠ [] then
      1 + countOccAux fuel p (rest.drop (p.length - 1))
    else
      countOccAux fuel p rest

/-- Python `str.count`: number of non-overlapping occurrences of `p` in `s`,
scanning left to right (for the nonempty keyword patterns the sources use). -/
def countOcc (p : List Char) (s : List Char) : ℕ :=
  countOccAux s.length p s

/-- Lower-cased character stream of a string (Python `str.lower()` on the
ASCII texts in play). -/
def lowerChars (s : String) : List Char :=
  s.toList.map Char.toLower

/-- Substring test, Python `sub in s`. -/
def strContains (s sub : String) : Bool :=
  0 < countOcc sub.toList s.toList

/-- Python `' '.join(l)`. -/
def joinSp (l : List String) : String :=
  match l with
  | [] => ""
  | [s] => s
  | s :: rest => s ++ " " ++ joinSp rest

/-- From `_analyze_emotional_data`: the combined text
`' '.join(' '.join(fields) for fields in zip(*text_fields))`, where the
fields are the present ones among `emotionalState` and `dailyJournal`;
`none` when neither column exists. -/
def combinedText (es dj : Option (List String)) : Option String :=
  match es, dj with
  | none, none => none
  | some l, none => some (joinSp l)
  | none, some l => some (joinSp l)
  | some l1, some l2 =>
    some (joinSp ((l1.zip l2).map (fun p => p.1 ++ " " ++ p.2)))

def positiveKeywords : List String :=
  ["happy", "joy", "excited", "great", "good", "wonderful", "pleased", "calm"]

def negativeKeywords : List String :=
  ["sad", "unhappy", "depressed", "upset", "down", "angry", "mad", "frustrated",
   "anxious", "worried", "stressed", "overwhelmed"]

def stressKeywords : List String :=
  ["stress", "stressed", "pressure", "overwhelmed", "burnout",
   "exhausted", "tired", "deadline", "workload", "worried", "anxiety"]

/-- Occurrences of every keyword of `kws` in the lower-cased text. -/
def keywordCount (kws : List String) (t : String) : ℕ :=
  (kws.map (fun k => countOcc k.toList (lowerChars t))).sum

def posCountOf (t : String) : ℕ := keywordCount positiveKeywords t

def negCountOf (t : String) : ℕ := keywordCount negativeKeywords t

def stressCountOf (t : String) : ℕ := keywordCount stressKeywords t

/-- The `insights["sentiment"]` block of `_analyze_emotional_data`. -/
structure Sentiment where
  overall : String
  positiveRatio : ℚ
  negativeRatio : ℚ
deriving Repr, DecidableEq

/-- The `positive_ratio` before scaling: `pos/(pos+neg)` when there are
mentions, `0.5` otherwise. -/
def sentimentRatio (t : String) : ℚ :=
  if 0 < posCountOf t + negCountOf t then
    (posCountOf t : ℚ) / ((posCountOf t : ℚ) + (negCountOf t : ℚ))
  else 1/2

/-- The `overall` sentiment label. -/
def overallOf (t : String) : String :=
  if 0 < posCountOf t + negCountOf t then
    (if 3/5 < sentimentRatio t then "positive"
     else if sentimentRatio t < 2/5 then "negative"
     else "mixed")
  else "neutral"

/-- Sentiment block computed from the combined text. -/
def sentimentOf (t : String) : Sentiment :=
  ⟨overallOf t,
   pyRound2 (sentimentRatio t * 100),
   pyRound2 ((1 - sentimentRatio t) * 100)⟩

/-- The `insights["stress_indicators"]` block of `_analyze_emotional_data`. -/
structure StressIndicators where
  mentions : ℕ
  wordCount : ℕ
  stressScore : ℚ
deriving Repr, DecidableEq

/-- Stress-keyword block computed from the combined text; the score is zero
for a falsy (empty) combined text, as in the conditional of the source. -/
def stressOf (t : String) : StressIndicators :=
  ⟨stressCountOf t,
   ((t.split (Char.isWhitespace)).filter (fun w => w ≠ "")).length,
   if t = "" then 0 else pyRound2 (min 10 ((stressCountOf t : ℚ) * 2))⟩

/-- The `insights["mood_patterns"]` block.  Here `volatility = none` is the `NaN` that
`round(nan, 2)` passes through for a single row. -/
structure MoodPatterns where
  average : ℚ
  volatility : Option ℚ
  trend : String
deriving Repr, DecidableEq

/-- Model of `np.polyfit(x, y, 1)[0]` over `x = 0, 1, ..., n-1`: the least-squares
slope `Σ(x-x̄)(y-ȳ) / Σ(x-x̄)²`. -/
def polySlope (l : List ℚ) : ℚ :=
  let xs : List ℚ := (List.range l.length).map (fun i => (i : ℚ))
  covSum xs l / covSum xs xs

/-- Mood trend label: only computed with at least three rows. -/
def moodTrend (l : List ℚ) : String :=
  if 3 ≤ l.length then
    if 1/10 < polySlope l then "improving"
    else if polySlope l < -(1/10) then "declining"
    else "stable"
  else "stable"

def moodPatternsOf (l : List ℚ) : MoodPatterns :=
  ⟨pyRound2 (mean l), (sampleStd l).map pyRound2, moodTrend l⟩

/-- The `insights["energy_patterns"]` block. -/
structure EnergyPatterns where
  average : ℚ
  volatility : Option ℚ
deriving Repr, DecidableEq

def energyPatternsOf (l : List ℚ) : EnergyPatterns :=
  ⟨pyRound2 (mean l), (sampleStd l).map pyRound2⟩

/-- Output of `_analyze_emotional_data`; each key is present only when its
gating column is. -/
structure EmotionalInsights where
  moodPatterns : Option MoodPatterns
  energyPatterns : Option EnergyPatterns
  sentiment : Option Sentiment
  stressIndicators : Option StressIndicators
deriving Repr, DecidableEq

def analyze_emotional_data (df : DataFrame) : EmotionalInsights :=
  let text := combinedText df.emotionalState df.dailyJournal
  ⟨df.mood.map moodPatternsOf,
   df.energy.map energyPatternsOf,
   text.map sentimentOf,
   text.map stressOf⟩

/-- The `insights["sleep"]` block of `_analyze_physical_data`.  Its `consistency` is
`100·(1 − min(1, std/2))`; with one row the `NaN` std is swallowed by
the Python `min` (see `pyMinNan`), so the field is `0`, never `NaN`. -/
structure SleepInsight where
  average : ℚ
  consistency : Option ℚ
  deficit : Bool
  minimum : ℚ
  maximum : ℚ
deriving Repr, DecidableEq

def sleepInsightOf (l : List ℚ) : SleepInsight :=
  ⟨pyRound2 (mean l),
   (pyMinNan 1 ((sampleStd l).map (fun s => s / 2))).map
     (fun m => pyRound2 (100 * (1 - m))),
   decide (mean l < 7),
   pyRound2 (listMin l), pyRound2 (listMax l)⟩

/-- The `insights["screen_time"]` block. -/
structure ScreenInsight where
  averageMinutes : ℚ
  excessive : Bool
  recommendedLimitMinutes : ℚ
deriving Repr, DecidableEq

def screenInsightOf (l : List ℚ) : ScreenInsight :=
  ⟨pyRound2 (mean l), decide (180 < mean l), 180⟩

/-- One cluster centroid as reported (`int()` on steps and heartRate,
`round(·, 2)` on sleepHours). -/
structure ClusterProfile where
  steps : ℤ
  heartRate : ℤ
  sleepHours : ℚ
deriving Repr, DecidableEq

/-- The `insights["activity_patterns"]` block. -/
structure ActivityPatterns where
  lowActivityDays : ℚ
  moderateActivityDays : ℚ
  highActivityDays : ℚ
  low : ClusterProfile
  moderate : ClusterProfile
  high : ClusterProfile
deriving Repr, DecidableEq

/-- Result of the clustering step: a label per row and the three cluster
centers, already mapped back to original units. -/
structure KMeansResult where
  labels : List ℕ
  centers : List (ℚ × ℚ × ℚ)
deriving Repr, DecidableEq

/-- Abstract model of the composite
`StandardScaler().fit_transform` → `KMeans(n_clusters=3, random_state=0,
n_init=10).fit` → `scaler.inverse_transform(cluster_centers_)`.
Its internals are iterative floating-point optimisation outside the
embedding; because the random seed is fixed it is a pure function of the
feature rows, and `Except.error` models a raised exception.  Everything the
repository itself does around the call (row-count guard, `np.argsort`
labelling, `np.bincount` percentages, truncation) is embedded explicitly. -/
abbrev KMeansFn := List (ℚ × ℚ × ℚ) → Except String KMeansResult

/-- Insert `c` into the pair `x, y` assumed ascending by the steps key. -/
def insertThird (x y c : (ℚ × ℚ × ℚ) × ℚ) :
    ((ℚ × ℚ × ℚ) × ℚ) × ((ℚ × ℚ × ℚ) × ℚ) × ((ℚ × ℚ × ℚ) × ℚ) :=
  if c.1.1 < x.1.1 then (c, x, y)
  else if c.1.1 < y.1.1 then (x, c, y)
  else (x, y, c)

/-- Ascending sort of the three (center, percentage) pairs on the steps
coordinate of the center: the `np.argsort(center_steps)` gather of the
source (ties resolved deterministically). -/
def sort3 (a b c : (ℚ × ℚ × ℚ) × ℚ) :
    ((ℚ × ℚ × ℚ) × ℚ) × ((ℚ × ℚ × ℚ) × ℚ) × ((ℚ × ℚ × ℚ) × ℚ) :=
  if b.1.1 < a.1.1 then insertThird b a c else insertThird a b c

def profileOf (c : ℚ × ℚ × ℚ) : ClusterProfile :=
  ⟨pyTrunc c.1, pyTrunc c.2.1, pyRound2 c.2.2⟩

/-- The `try:`-protected activity-pattern block of `_analyze_physical_data`:
`none` models any caught exception (too few rows for three clusters, a
failed fit, or the `IndexError` when `np.bincount` is shorter than 3). -/
def activityPatternsOf (km : KMeansFn) (n : ℕ)
    (stepsL hrL sleepL : List ℚ) : Option ActivityPatterns :=
  if n < 3 then none
  else
    match km (stepsL.zip (hrL.zip sleepL)) with
    | .error _ => none
    | .ok res =>
      match res.centers with
      | [c0, c1, c2] =>
        if res.labels.any (fun l => 2 ≤ l) then
          let pct : ℕ → ℚ := fun i => 100 * (res.labels.count i : ℚ) / (n : ℚ)
          let s := sort3 (c0, pct 0) (c1, pct 1) (c2, pct 2)
          some ⟨pyRound2 s.1.2, pyRound2 s.2.1.2, pyRound2 s.2.2.2,
                profileOf s.1.1, profileOf s.2.1.1, profileOf s.2.2.1⟩
        else none
      | _ => none

/-- Output of `_analyze_physical_data`. -/
structure PhysicalInsights where
  sleep : Option SleepInsight
  activityPatterns : Option ActivityPatterns
  screenTime : Option ScreenInsight
deriving Repr, DecidableEq

def analyze_physical_data (km : KMeansFn) (df : DataFrame) : PhysicalInsights :=
  ⟨df.sleepHours.map sleepInsightOf,
   (match df.steps, df.heartRate, df.sleepHours with
    | some s, some h, some sl => activityPatternsOf km df.nrows s h sl
    | _, _, _ => none),
   df.screenTimeMinutes.map screenInsightOf⟩

/-- One element of `correlations["mood_factors"]`.  The Pearson `r` is a square
root; the record carries the exact square `rsq = r²` together with the sign
(via `relationship`), from which every downstream comparison and the level
`min(10, int(10·|r|))` are computed exactly.  (The source additionally
rounds the stored coefficient to two decimals before the level computation;
that cosmetic rounding is dropped here and no claim depends on the level of
a correlation-derived stressor.) -/
structure MoodFactor where
  metric : String
  rsq : ℚ
  relationship : String
  impact : String
deriving Repr, DecidableEq

/-- Correlation of one candidate column against mood, kept when
`|r| ≥ 0.3` (equivalently `100·sxy² ≥ 9·sxx·syy`); a zero-variance column
yields `NaN`, which fails the `abs(value) >= 0.3` test. -/
def mkFactor (metric : String) (moodL col : List ℚ) : List MoodFactor :=
  let sxy := covSum moodL col
  let sxx := covSum moodL moodL
  let syy := covSum col col
  if sxx = 0 ∨ syy = 0 then []
  else if 9 * (sxx * syy) ≤ 100 * sxy ^ 2 then
    [⟨metric, sxy ^ 2 / (sxx * syy),
      if 0 < sxy then "positive" else "negative",
      if 49 * (sxx * syy) < 100 * sxy ^ 2 then "strong"
      else if 25 * (sxx * syy) < 100 * sxy ^ 2 then "moderate"
      else "weak"⟩]
  else []

/-- The significant mood correlations, iterated in the fixed candidate
order `energy, steps, heartRate, sleepHours, screenTimeMinutes` (the order
of `correlation_columns` with `mood` dropped). -/
def optFactor (metric : String) (moodL : List ℚ) (o : Option (List ℚ)) :
    List MoodFactor :=
  match o with
  | some c => mkFactor metric moodL c
  | none => []

def moodFactors (df : DataFrame) (moodL : List ℚ) : List MoodFactor :=
  optFactor "energy" moodL df.energy ++
  optFactor "steps" moodL df.steps ++
  optFactor "heartRate" moodL df.heartRate ++
  optFactor "sleepHours" moodL df.sleepHours ++
  optFactor "screenTimeMinutes" moodL df.screenTimeMinutes

/-- Model of `_find_correlations`: `none` models the empty dict (falsy, no
`"mood_factors"` key) returned when `mood` is absent or no other candidate
column exists. -/
def find_correlations (df : DataFrame) : Option (List MoodFactor) :=
  match df.mood with
  | none => none
  | some m =>
    if df.energy.isSome ∨ df.steps.isSome ∨ df.heartRate.isSome ∨
       df.sleepHours.isSome ∨ df.screenTimeMinutes.isSome then
      some (moodFactors df m)
    else none

/-- A stressor as built by `_identify_stressors`; the free-text
`description`/`impact` fields are not modelled. -/
structure Stressor where
  name : String
  level : ℤ
deriving Repr, DecidableEq

/-- The level `floor(10·|r|)` computed from `r²`:
`⌊√(100·r²)⌋ = Nat.sqrt ⌊100·r²⌋`. -/
def corrLevel (f : MoodFactor) : ℤ :=
  min 10 ((Nat.sqrt (⌊100 * f.rsq⌋).toNat : ℤ))

def sleep_stressor (o : Option (List ℚ)) : List Stressor :=
  match o with
  | some l =>
    if mean l < 7 then [⟨"Sleep Deficit", min 10 (pyTrunc (10 - mean l))⟩]
    else []
  | none => []

def screen_stressor (o : Option (List ℚ)) : List Stressor :=
  match o with
  | some l =>
    if 180 < mean l then [⟨"Digital Overload", min 10 (pyTrunc (mean l / 60))⟩]
    else []
  | none => []

def mood_stressor (o : Option (List ℚ)) : List Stressor :=
  match o with
  | some l =>
    if mean l < 5 then [⟨"Low Mood Patterns", 11 - pyTrunc (mean l)⟩]
    else []
  | none => []

def steps_stressor (o : Option (List ℚ)) : List Stressor :=
  match o with
  | some l =>
    if mean l < 5000 then
      [⟨"Low Physical Activity", min 10 (pyTrunc (10 - mean l / 1000))⟩]
    else []
  | none => []

/-- The four threshold rules of `_identify_stressors`, in source order. -/
def base_stressors (df : DataFrame) : List Stressor :=
  sleep_stressor df.sleepHours ++ screen_stressor df.screenTimeMinutes ++
  mood_stressor df.mood ++ steps_stressor df.steps

/-- One iteration of the correlation-stressor loop of
`_identify_stressors`. -/
def corrStep (acc : List Stressor) (f : MoodFactor) : List Stressor :=
  if f.relationship = "negative" ∧ (f.impact = "moderate" ∨ f.impact = "strong") then
    if f.metric = "screenTimeMinutes" ∧
        ¬ acc.any (fun s => s.name = "Digital Overload") then
      acc ++ [⟨"Screen Time Impact", corrLevel f⟩]
    else if f.metric = "sleepHours" ∧
        ¬ acc.any (fun s => s.name = "Sleep Deficit") then
      acc ++ [⟨"Sleep Quality Impact", corrLevel f⟩]
    else acc
  else acc

def identify_stressors (df : DataFrame) (corr : Option (List MoodFactor)) :
    List Stressor :=
  match corr with
  | none => base_stressors df
  | some fs => fs.foldl corrStep (base_stressors df)

/-- A recommendation bundle of `_generate_recommendations`. -/
structure Recommendation where
  target : String
  recommendation : String
  priority : String
  actions : List String
deriving Repr, DecidableEq

def sleepRec (level : ℤ) : Recommendation :=
  ⟨"Sleep Optimization", "Improve sleep quality and duration",
   if 7 ≤ level then "high" else "medium",
   ["Establish a consistent sleep schedule, going to bed and waking up at the same time daily",
    "Create a relaxing bedtime routine (reading, gentle stretching, warm bath)",
    "Limit screen time at least 1 hour before bed",
    "Ensure your bedroom is dark, quiet, and cool",
    "Consider using a sleep tracking app for more detailed insights"]⟩

def digitalRec (level : ℤ) : Recommendation :=
  ⟨"Digital Wellbeing", "Reduce screen time and improve digital habits",
   if 7 ≤ level then "high" else "medium",
   ["Set specific times to check emails and social media",
    "Use \x27Do Not Disturb\x27 mode during focus time and before bed",
    "Take regular breaks using the 20-20-20 rule (every 20 minutes, look at something 20 feet away for 20 seconds)",
    "Designate screen-free times or zones in your home",
    "Use screen time tracking apps to set limits on device usage"]⟩

def moodRec (level : ℤ) : Recommendation :=
  ⟨"Mood Enhancement", "Implement strategies to improve emotional wellbeing",
   if 7 ≤ level then "high" else "medium",
   ["Schedule small moments of joy throughout your day",
    "Practice gratitude by noting three positive things daily",
    "Spend time in nature - even a short walk in a park can boost mood",
    "Reach out to supportive friends or family regularly",
    "Consider mindfulness or meditation practices to manage stress"]⟩

def activityRec (level : ℤ) (df : DataFrame) : Recommendation :=
  let currentAvg : ℚ := match df.steps with | some l => mean l | none => 3000
  let target : ℤ := min (pyTrunc (currentAvg * (12/10))) 10000
  ⟨"Physical Activity", "Gradually increase daily activity",
   if 7 ≤ level then "high" else "medium",
   ["Set a goal of " ++ toString target ++ " steps daily",
    "Break up long sitting periods with short walks",
    "Schedule 10-minute movement breaks throughout your day",
    "Find physical activities you enjoy to make movement sustainable",
    "Consider tracking progress with a fitness app or device"]⟩

def generalRec : Recommendation :=
  ⟨"General Wellbeing", "Incorporate balanced wellbeing practices", "medium",
   ["Maintain a consistent daily routine",
    "Stay hydrated and eat nutritious meals",
    "Take short breaks throughout the day to reset",
    "Practice deep breathing or meditation when feeling stressed",
    "Balance work with activities you enjoy"]⟩

/-- The per-stressor dispatch of `_generate_recommendations` (substring
match on the stressor name, in source branch order). -/
def recFor (df : DataFrame) (s : Stressor) : Option Recommendation :=
  if strContains s.name "Sleep" then some (sleepRec s.level)
  else if strContains s.name "Digital" ∨ strContains s.name "Screen" then
    some (digitalRec s.level)
  else if strContains s.name "Mood" then some (moodRec s.level)
  else if strContains s.name "Activity" ∨
      strContains (String.mk (lowerChars s.name)) "steps" then
    some (activityRec s.level df)
  else none

/-- The recommendations produced directly from the stressor list, before the
general-wellbeing padding. -/
def stressorRecs (stressors : List Stressor) (df : DataFrame) :
    List Recommendation :=
  stressors.filterMap (recFor df)

def generate_recommendations (stressors : List Stressor) (df : DataFrame) :
    List Recommendation :=
  let recs := stressorRecs stressors df
  if recs.length < 2 then recs ++ [generalRec] else recs

structure Insights where
  physical : PhysicalInsights
  emotional : EmotionalInsights
  correlations : Option (List MoodFactor)
deriving Repr, DecidableEq

/-- The analysis report of `analyze_data` (`session_id` and the wall-clock
timestamp are not modelled). -/
structure Report where
  stressors : List Stressor
  recommendations : List Recommendation
  insights : Insights
deriving Repr, DecidableEq

/-- Model of `FetchAgentSystem.analyze_data` on an already-built frame.  No step of
the source raises on any frame reachable from `pd.DataFrame(entries)` —
in particular an empty entry list produces a frame with no columns, every
gated block is skipped, and a complete (degenerate) report is returned —
so the pipeline is total here. -/
def analyze_df (km : KMeansFn) (df : DataFrame) : Report :=
  let corr := find_correlations df
  let st := identify_stressors df corr
  ⟨st, generate_recommendations st df,
   ⟨analyze_physical_data km df, analyze_emotional_data df, corr⟩⟩

/-- Model of `FetchAgentSystem.analyze_data(entries)`. -/
def analyze_data (km : KMeansFn) (entries : List Entry) : Report :=
  analyze_df km (toDataFrame entries)

/-- A clustering function that always raises, for stating what the pipeline
does when the fit fails. -/
def kmFail : KMeansFn := fun _ => .error "ValueError"

/-! ## The alternate (agent-network) pipeline of `exampleAgents.py` -/

/-- The frame of the alternate pipeline (snake_case columns of the mock data);
`activities` holds the flattened `activity_<name>` columns and
`emotionalJournal` the `emotional_journal` column. -/
structure AltDf where
  heartRateAvg : List ℚ
  screenTimeHours : List ℚ
  screenTimeProductivity : List ℚ
  stepsWalked : List ℚ
  sleepHours : List ℚ
  sleepQuality : List ℚ
  energyLevel : List ℚ
  moodLevel : List ℚ
  activities : List (String × List ℚ)
  emotionalJournal : List String
deriving Repr

/-- A pattern of `identify_patterns` (free-text descriptions omitted; a
correlation pattern carries the exact `strength²` and the sign). -/
inductive AltPattern where
  | correlation (factor1 factor2 : String) (strengthSq : ℚ) (negative : Bool)
  | threshold (factor effectOn : String) (effectSize : ℚ)
  | cluster (clusterId : ℕ) (dayQuality : String) (frequency : ℕ)
deriving Repr, DecidableEq

/-- The row count `len(df)` for the alternate frame. -/
def AltDf.nrows (df : AltDf) : ℕ := df.moodLevel.length

/-- The fixed `numeric_cols` of `identify_patterns` followed by the
`activity_*` columns. -/
def altNumericCols (df : AltDf) : List (String × List ℚ) :=
  [("heart_rate_avg", df.heartRateAvg),
   ("screen_time_hours", df.screenTimeHours),
   ("screen_time_productivity", df.screenTimeProductivity),
   ("steps_walked", df.stepsWalked),
   ("sleep_hours", df.sleepHours),
   ("sleep_quality", df.sleepQuality),
   ("energy_level", df.energyLevel),
   ("mood_level", df.moodLevel)] ++ df.activities

/-- The three `<col>_next_day` columns, shifted by −1 and restricted (as all
columns are) to the first `n−1` rows of `df_with_next`. -/
def altNextDayCols (df : AltDf) : List (String × List ℚ) :=
  [("mood_level_next_day", df.moodLevel.drop 1),
   ("energy_level_next_day", df.energyLevel.drop 1),
   ("sleep_quality_next_day", df.sleepQuality.drop 1)]

/-- One candidate correlation over `df_with_next` (kept when
`|r| > 0.3`, strict; `NaN` from a zero-variance column fails the test). -/
def mkAltCorr (n : ℕ) (c1 : String × List ℚ) (c2 : String × List ℚ) :
    List AltPattern :=
  let x := c1.2.take (n - 1)
  let y := c2.2
  let sxy := covSum x y
  let sxx := covSum x x
  let syy := covSum y y
  if sxx = 0 ∨ syy = 0 then []
  else if 9 * (sxx * syy) < 100 * sxy ^ 2 then
    [.correlation c1.1 c2.1 (sxy ^ 2 / (sxx * syy)) (decide (sxy < 0))]
  else []

/-- Step 1 of `identify_patterns`: all significant correlations between a
same-day metric and next-day mood/energy/sleep-quality. -/
def altCorrelationPatterns (df : AltDf) : List AltPattern :=
  (altNumericCols df).flatMap (fun c1 =>
    (altNextDayCols df).flatMap (fun c2 => mkAltCorr df.nrows c1 c2))

/-- One threshold-split comparison: means of `effect` over the rows where
`factor` exceeds `thr` versus the rest; reported when the high group has
more than five rows and the difference exceeds one half (a mean over an
empty complement is `NaN` and fails that comparison). -/
def altThreshold (factorName effectName : String) (thr : ℚ)
    (factorCol effectCol : List ℚ) : List AltPattern :=
  let rows := factorCol.zip effectCol
  let high := rows.filter (fun r => thr < r.1)
  let low := rows.filter (fun r => ¬ thr < r.1)
  if 5 < high.length ∧ low.length ≠ 0 ∧
      1/2 < |mean (high.map (·.2)) - mean (low.map (·.2))| then
    [.threshold factorName effectName
       (mean (high.map (·.2)) - mean (low.map (·.2)))]
  else []

/-- Step 2 of `identify_patterns`. -/
def altThresholdPatterns (df : AltDf) : List AltPattern :=
  altThreshold "screen_time_hours" "sleep_quality" 3
    df.screenTimeHours df.sleepQuality ++
  altThreshold "steps_walked" "mood_level" 8000
    df.stepsWalked df.moodLevel

/-- Abstract model of the alternate
`StandardScaler` + `KMeans(n_clusters=k, random_state=42).fit_predict`:
given `k` and the five-feature rows it returns a label per row, or raises. -/
abbrev AltKMeansFn := ℕ → List (ℚ × ℚ × ℚ × ℚ × ℚ) → Except String (List ℕ)

/-- The five-feature rows `{sleep_quality, screen_time_hours, steps_walked,
mood_level, energy_level}` used for day-type clustering. -/
def altFeatureRows (df : AltDf) : List (ℚ × ℚ × ℚ × ℚ × ℚ) :=
  df.sleepQuality.zip (df.screenTimeHours.zip (df.stepsWalked.zip
    (df.moodLevel.zip df.energyLevel)))

/-- Step 3 of `identify_patterns`: day-type clustering into
`k = min(5, n // 5)` clusters.  `k = 0` models the `ValueError` that
`KMeans` raises for an invalid cluster count; any failure propagates to the
single `except` handler wrapping the whole function. -/
def altClusterStage (km : AltKMeansFn) (df : AltDf) :
    Except String (List AltPattern) :=
  let n := df.nrows
  let k := min 5 (n / 5)
  if k < 1 then .error "ValueError: n_clusters"
  else
    match km k (altFeatureRows df) with
    | .error e => .error e
    | .ok labels =>
      .ok ((List.range k).filterMap (fun i =>
        let members := ((altFeatureRows df).zip labels).filter
          (fun r => r.2 = i)
        if 3 ≤ members.length then
          let ms := members.map (·.1)
          let dayQuality :=
            (mean (ms.map (fun r => r.2.2.2.1)) +
             mean (ms.map (fun r => r.2.2.2.2))) / 2
          some (.cluster i
            (if 7 < dayQuality then "good"
             else if dayQuality < 5 then "bad" else "average")
            members.length)
        else none))

/-- Model of `identify_patterns`: the single `try/except` wraps correlation,
threshold and cluster analysis together, and an exception anywhere returns
`[]`, discarding every pattern already computed.  On the modelled frame
(all columns present and total arithmetic) the only raising step is the
clustering stage. -/
def identify_patterns (km : AltKMeansFn) (df : AltDf) : List AltPattern :=
  match altClusterStage km df with
  | .error _ => []
  | .ok clusterPatterns =>
    altCorrelationPatterns df ++ altThresholdPatterns df ++ clusterPatterns

/-- An alternate-pipeline stressor as consumed by the alternate
`generate_recommendations` (it reads only the factor key of the dict). -/
structure AltStressor where
  factor : String
deriving Repr, DecidableEq

/-- An alternate-pipeline recommendation (the `evidence`/`impact` free-text
fields are not modelled). -/
structure AltRec where
  stressor : String
  recommendation : String
deriving Repr, DecidableEq

/-- The per-stressor dispatch of the alternate `generate_recommendations`
(substring tests on the raw factor key, in source branch order; the
`unproductive_screen_time` branch is unreachable because the earlier
`screen_time` test already matches it, and is kept for fidelity). -/
def altStressorRecs (factor : String) : List AltRec :=
  if strContains factor "poor_sleep" then
    [⟨factor, "Establish a consistent sleep schedule, going to bed and waking up at the same time each day"⟩,
     ⟨factor, "Create a relaxing pre-sleep routine (reading, light stretching, no screens 1 hour before bed)"⟩]
  else if strContains factor "screen_time" then
    [⟨factor, "Schedule 2-hour blocks of focused work with 15-minute screen breaks"⟩,
     ⟨factor, "Use app blockers to limit social media use to specific times of day"⟩]
  else if strContains factor "sedentary" ∨ factor = "steps_walked" then
    [⟨factor, "Set a timer to stand up and walk for 5 minutes every hour"⟩,
     ⟨factor, "Schedule 20-30 minute walks after lunch and dinner"⟩]
  else if strContains factor "unproductive_screen_time" then
    [⟨factor, "Use the Pomodoro technique: 25 minutes of focused work followed by a 5-minute break"⟩]
  else if ["stress", "anxious", "overwhelm", "tired", "exhausted"].any
      (fun k => strContains factor k) then
    [⟨factor, "Practice 10 minutes of mindfulness meditation daily"⟩,
     ⟨factor, "Schedule worry time: 15 minutes to write down all concerns, then set them aside"⟩]
  else []

def altGeneralRecs : List AltRec :=
  [⟨"general_wellbeing", "Drink water immediately upon waking and aim for 2-3 liters throughout the day"⟩,
   ⟨"general_wellbeing", "Spend 15 minutes outside in natural light within 1 hour of waking"⟩]

/-- The final prioritisation of the alternate `generate_recommendations`:
up to four specific items, padded with general ones toward five. -/
def altPrioritize (recs : List AltRec) : List AltRec :=
  let specific := recs.filter (fun r => r.stressor ≠ "general_wellbeing")
  let general := recs.filter (fun r => r.stressor = "general_wellbeing")
  let prioritized := specific.take 4
  if prioritized.length < 5 then
    prioritized ++ general.take (5 - prioritized.length)
  else prioritized

/-- The alternate `generate_recommendations`: stressor-specific bundles,
general padding when fewer than five, then the top-5 prioritisation. -/
def alt_generate_recommendations (stressors : List AltStressor) : List AltRec :=
  let recs := stressors.flatMap (fun s => altStressorRecs s.factor)
  altPrioritize (if recs.length < 5 then recs ++ altGeneralRecs else recs)

/-- An alternate clustering function that always raises. -/
def altKmFail : AltKMeansFn := fun _ _ => .error "ValueError"

/-! ## Concrete inputs used by witnesses and counterexamples -/

/-- A single day with 6.4 hours of sleep, no other threshold crossed and
empty journal text. -/
def eC2 : Entry := ⟨5, 5, 6000, 0, 32/5, 70, 0, 0, "", ""⟩

/-- The round-trip scenario frame: exactly the four columns fixed by the
scenario (`sleepHours [6.5, 7.2, 5.5]`, `screenTimeMinutes [240, 180, 320]`,
`steps [7500, 9000, 3000]`, `mood [6, 7, 4]`). -/
def dfC6 : DataFrame :=
  ⟨some [6, 7, 4], none, some [7500, 9000, 3000], some [240, 180, 320],
   some [13/2, 36/5, 11/2], none, none, none, none, none, 3⟩

/-- A clustering function returning fixed labels and centers, for witnessing
a successful activity-pattern run. -/
def km3 : KMeansFn := fun _ => .ok ⟨[0, 1, 2], [(1, 2, 3), (4, 5, 6), (7, 8, 9)]⟩

/-- A frame with the three activity columns and three rows. -/
def df3 : DataFrame :=
  ⟨none, none, some [1000, 2000, 3000], none, some [7, 8, 6],
   some [70, 71, 72], none, none, none, none, 3⟩

/-- Four mock days whose only varying column is `mood_level`: the
correlation stage finds one significant pattern, while `k = min(5, 4//5) = 0`
makes the clustering stage raise. -/
def dfC8 : AltDf :=
  ⟨[5, 5, 5, 5], [5, 5, 5, 5], [5, 5, 5, 5], [5, 5, 5, 5], [5, 5, 5, 5],
   [5, 5, 5, 5], [5, 5, 5, 5], [1, 2, 3, 4], [], ["", "", "", ""]⟩

/-! ## Helper lemmas -/

theorem pyTrunc_nonneg {q : ℚ} (h : 0 ≤ q) : 0 ≤ pyTrunc q := by
  unfold pyTrunc
  rw [if_pos h]
  exact Int.floor_nonneg.mpr h

theorem pyTrunc_mono {a b : ℚ} (h : a ≤ b) : pyTrunc a ≤ pyTrunc b := by
  unfold pyTrunc
  split_ifs with h1 h2 h2
  · exact Int.floor_le_floor h
  · linarith
  · have ha : (0:ℤ) ≤ ⌊b⌋ := Int.floor_nonneg.mpr h2
    have hb : (0:ℤ) ≤ ⌊-a⌋ := Int.floor_nonneg.mpr (by linarith)
    omega
  · have := Int.floor_le_floor (neg_le_neg h)
    omega

theorem stressorRecs_nil (df : DataFrame) : stressorRecs [] df = [] := rfl

theorem altPrioritize_length_le (recs : List AltRec) :
    (altPrioritize recs).length ≤ 5 := by
  simp only [altPrioritize]
  split
  · simp only [List.length_append, List.length_take]
    omega
  · simp only [List.length_take]
    omega

/-! ## C10 -/

/-- C10: with an empty stressor list the primary generator returns exactly
the "General Wellbeing" bundle (priority "medium", five fixed actions), and
`analyze` never returns an empty recommendations list. -/
theorem C10_empty_stressor_list_general_recommendation :
    (∀ df : DataFrame, generate_recommendations [] df = [generalRec]) ∧
    generalRec.target = "General Wellbeing" ∧
    generalRec.priority = "medium" ∧
    generalRec.actions.length = 5 ∧
    (∀ (km : KMeansFn) (entries : List Entry),
      (analyze_data km entries).recommendations ≠ []) := by
  refine ⟨fun df => rfl, rfl, rfl, rfl, fun km entries => ?_⟩
  have h : (analyze_data km entries).recommendations =
      generate_recommendations
        (identify_stressors (toDataFrame entries)
          (find_correlations (toDataFrame entries)))
        (toDataFrame entries) := rfl
  rw [h]
  simp only [generate_recommendations]
  split
  · simp
  · next hlen =>
    intro hnil
    rw [hnil] at hlen
    simp at hlen

/-! ## C4 -/

/-- C4: the primary generator returns at least one recommendation for every
nonempty stressor list; when fewer than two stressor-specific
recommendations were produced exactly one "General Wellbeing" bundle
(priority "medium") is appended; and the pattern-based generator never
returns more than five recommendations. -/
theorem C4_recommendation_count_bounds :
    (∀ (st : List Stressor) (df : DataFrame), st ≠ [] →
       1 ≤ (generate_recommendations st df).length) ∧
    (∀ (st : List Stressor) (df : DataFrame),
       (stressorRecs st df).length < 2 →
       generate_recommendations st df = stressorRecs st df ++ [generalRec]) ∧
    generalRec.priority = "medium" ∧
    (∀ stressors : List AltStressor,
       (alt_generate_recommendations stressors).length ≤ 5) := by
  refine ⟨fun st df _ => ?_, fun st df h => ?_, rfl, fun stressors => ?_⟩
  · simp only [generate_recommendations]
    split
    · simp
    · next hlen =>
      simp only [not_lt] at hlen
      omega
  · simp only [generate_recommendations]
    rw [if_pos h]
  · simp only [alt_generate_recommendations]
    exact altPrioritize_length_le _

/-- Witness for C4 at a one-element stressor list. -/
theorem C4_recommendation_count_bounds_witness :
    1 ≤ (generate_recommendations [⟨"Sleep Deficit", 3⟩] (toDataFrame [])).length ∧
    generate_recommendations [⟨"Sleep Deficit", 3⟩] (toDataFrame []) =
      stressorRecs [⟨"Sleep Deficit", 3⟩] (toDataFrame []) ++ [generalRec] :=
  ⟨C4_recommendation_count_bounds.1 [⟨"Sleep Deficit", 3⟩] (toDataFrame [])
     (by decide),
   C4_recommendation_count_bounds.2.1 [⟨"Sleep Deficit", 3⟩] (toDataFrame [])
     (by decide)⟩

/-! ## C3 -/

/-- C3 counterexample: calling the primary `analyze` on the empty
entry list does not produce an error result — it returns the complete
report shape (no stressors, the general recommendation, empty insight
blocks).  In the source, `pd.DataFrame([])` has no columns, so every gated
analysis block is skipped and no exception is raised; the error-shaped
result exists only in the alternate `start_analysis` pipeline. -/
theorem C3_empty_entries_counterexample :
    analyze_data kmFail [] =
      ⟨[], [generalRec],
       ⟨⟨none, none, none⟩, ⟨none, none, none, none⟩, none⟩⟩ := by
  decide

/-- C3 (amended): on the empty entry list the primary pipeline returns a
complete report — empty stressor list, exactly the "General Wellbeing"
recommendation, and empty physical/emotional/correlation insight blocks —
rather than an error carrier; this holds whatever the clustering
function is. -/
theorem C3_empty_entries_complete_report (km : KMeansFn) :
    analyze_data km [] =
      ⟨[], [generalRec],
       ⟨⟨none, none, none⟩, ⟨none, none, none, none⟩, none⟩⟩ := rfl

/-! ## C6 -/

/-- C6: on the round-trip scenario (mean sleep 6.4 h, mean steps 6500) the
report contains a "Sleep Deficit" stressor, no "Low Physical Activity"
stressor, and a recommendation targeting "Sleep Optimization"; the
stressor and recommendation stages do not depend on the clustering
function. -/
theorem C6_round_trip_scenario (km : KMeansFn) :
    mean [(13:ℚ)/2, 36/5, 11/2] < 7 ∧
    ¬ mean [(7500:ℚ), 9000, 3000] < 5000 ∧
    ((analyze_df km dfC6).stressors.any
      (fun s => s.name = "Sleep Deficit")) = true ∧
    ((analyze_df km dfC6).stressors.any
      (fun s => s.name = "Low Physical Activity")) = false ∧
    ((analyze_df km dfC6).recommendations.any
      (fun r => r.target = "Sleep Optimization")) = true := by
  have hst : (analyze_df km dfC6).stressors =
      identify_stressors dfC6 (find_correlations dfC6) := rfl
  have hrec : (analyze_df km dfC6).recommendations =
      generate_recommendations
        (identify_stressors dfC6 (find_correlations dfC6)) dfC6 := rfl
  rw [hst, hrec]
  decide

/-! ## Stressor-list lemmas (for C1 and C2) -/

theorem mem_sleep_stressor {o : Option (List ℚ)} {s : Stressor}
    (h : s ∈ sleep_stressor o) :
    ∃ l, o = some l ∧ mean l < 7 ∧
      s = ⟨"Sleep Deficit", min 10 (pyTrunc (10 - mean l))⟩ := by
  rcases o with _ | l
  · simp [sleep_stressor] at h
  · simp only [sleep_stressor] at h
    split at h
    · next hc =>
      simp only [List.mem_singleton] at h
      exact ⟨l, rfl, hc, h⟩
    · simp at h

theorem mem_screen_stressor {o : Option (List ℚ)} {s : Stressor}
    (h : s ∈ screen_stressor o) : s.name = "Digital Overload" := by
  rcases o with _ | l
  · simp [screen_stressor] at h
  · simp only [screen_stressor] at h
    split at h
    · simp only [List.mem_singleton] at h
      rw [h]
    · simp at h

theorem mem_mood_stressor {o : Option (List ℚ)} {s : Stressor}
    (h : s ∈ mood_stressor o) : s.name = "Low Mood Patterns" := by
  rcases o with _ | l
  · simp [mood_stressor] at h
  · simp only [mood_stressor] at h
    split at h
    · simp only [List.mem_singleton] at h
      rw [h]
    · simp at h

theorem mem_steps_stressor {o : Option (List ℚ)} {s : Stressor}
    (h : s ∈ steps_stressor o) : s.name = "Low Physical Activity" := by
  rcases o with _ | l
  · simp [steps_stressor] at h
  · simp only [steps_stressor] at h
    split at h
    · simp only [List.mem_singleton] at h
      rw [h]
    · simp at h

theorem corrStep_eq (acc : List Stressor) (f : MoodFactor) :
    corrStep acc f = acc ∨
    corrStep acc f = acc ++ [⟨"Screen Time Impact", corrLevel f⟩] ∨
    corrStep acc f = acc ++ [⟨"Sleep Quality Impact", corrLevel f⟩] := by
  unfold corrStep
  split_ifs <;>
    first
      | exact Or.inl rfl
      | exact Or.inr (Or.inl rfl)
      | exact Or.inr (Or.inr rfl)

theorem mem_corrStep {acc : List Stressor} {f : MoodFactor} {s : Stressor}
    (h : s ∈ corrStep acc f) :
    s ∈ acc ∨ s.name = "Screen Time Impact" ∨
      s.name = "Sleep Quality Impact" := by
  rcases corrStep_eq acc f with he | he | he <;> rw [he] at h
  · exact Or.inl h
  · rcases List.mem_append.mp h with h1 | h1
    · exact Or.inl h1
    · simp only [List.mem_singleton] at h1
      rw [h1]
      exact Or.inr (Or.inl rfl)
  · rcases List.mem_append.mp h with h1 | h1
    · exact Or.inl h1
    · simp only [List.mem_singleton] at h1
      rw [h1]
      exact Or.inr (Or.inr rfl)

theorem mem_corrStep_of_mem {acc : List Stressor} {f : MoodFactor}
    {s : Stressor} (h : s ∈ acc) : s ∈ corrStep acc f := by
  rcases corrStep_eq acc f with he | he | he <;> rw [he] <;>
    simp [List.mem_append, h]

theorem mem_foldl_corrStep :
    ∀ (fs : List MoodFactor) (acc : List Stressor) (s : Stressor),
      s ∈ fs.foldl corrStep acc →
      s ∈ acc ∨ s.name = "Screen Time Impact" ∨
        s.name = "Sleep Quality Impact"
  | [], _, _, h => Or.inl h
  | f :: fs, acc, s, h => by
    rw [List.foldl_cons] at h
    rcases mem_foldl_corrStep fs (corrStep acc f) s h with h1 | h1 | h1
    · exact mem_corrStep h1
    · exact Or.inr (Or.inl h1)
    · exact Or.inr (Or.inr h1)

theorem mem_foldl_of_mem :
    ∀ (fs : List MoodFactor) (acc : List Stressor) (s : Stressor),
      s ∈ acc → s ∈ fs.foldl corrStep acc
  | [], _, _, h => h
  | f :: fs, acc, s, h => by
    rw [List.foldl_cons]
    exact mem_foldl_of_mem fs _ _ (mem_corrStep_of_mem h)

/-! ## C2 -/

/-- C2 (amended): "Sleep Deficit" is emitted iff the mean of `sleepHours`
is strictly below 7.0, and its level is `min(10, int(10 − meanSleep))` —
`int` truncation toward zero (the round formula of the claim fails, see the
counterexample) — which always lies in [0, 10]. -/
theorem C2_sleep_deficit_rule (km : KMeansFn) (entries : List Entry)
    (h : entries ≠ []) :
    (((analyze_data km entries).stressors.any
        (fun s => s.name = "Sleep Deficit")) = true ↔
      mean (entries.map (·.sleepHours)) < 7) ∧
    ∀ s ∈ (analyze_data km entries).stressors, s.name = "Sleep Deficit" →
      s.level = min 10 (pyTrunc (10 - mean (entries.map (·.sleepHours)))) ∧
      0 ≤ s.level ∧ s.level ≤ 10 := by
  obtain ⟨e, es, rfl⟩ := List.exists_cons_of_ne_nil h
  have hst : (analyze_data km (e :: es)).stressors =
      (moodFactors (toDataFrame (e :: es)) ((e :: es).map (·.mood))).foldl
        corrStep (base_stressors (toDataFrame (e :: es))) := rfl
  have hsl : (toDataFrame (e :: es)).sleepHours =
      some ((e :: es).map (·.sleepHours)) := rfl
  rw [hst]
  have hbase : ∀ s ∈ base_stressors (toDataFrame (e :: es)),
      s.name = "Sleep Deficit" →
      mean ((e :: es).map (·.sleepHours)) < 7 ∧
      s = ⟨"Sleep Deficit",
           min 10 (pyTrunc (10 - mean ((e :: es).map (·.sleepHours))))⟩ := by
    intro s hs hname
    unfold base_stressors at hs
    simp only [List.mem_append] at hs
    rcases hs with ((h1 | h1) | h1) | h1
    · obtain ⟨l, hl, hm, rfl⟩ := mem_sleep_stressor h1
      rw [hsl, Option.some.injEq] at hl
      subst hl
      exact ⟨hm, rfl⟩
    · rw [mem_screen_stressor h1] at hname
      exact absurd hname (by decide)
    · rw [mem_mood_stressor h1] at hname
      exact absurd hname (by decide)
    · rw [mem_steps_stressor h1] at hname
      exact absurd hname (by decide)
  constructor
  · simp only [List.any_eq_true, decide_eq_true_eq]
    constructor
    · rintro ⟨s, hmem, hname⟩
      rcases mem_foldl_corrStep _ _ _ hmem with h1 | h1 | h1
      · exact (hbase s h1 hname).1
      · rw [h1] at hname
        exact absurd hname (by decide)
      · rw [h1] at hname
        exact absurd hname (by decide)
    · intro hmean
      refine ⟨⟨"Sleep Deficit",
        min 10 (pyTrunc (10 - mean ((e :: es).map (·.sleepHours))))⟩,
        mem_foldl_of_mem _ _ _ ?_, rfl⟩
      unfold base_stressors
      apply List.mem_append_left
      apply List.mem_append_left
      apply List.mem_append_left
      unfold sleep_stressor
      rw [hsl]
      simp only [if_pos hmean, List.mem_singleton]
  · intro s hmem hname
    rcases mem_foldl_corrStep _ _ _ hmem with h1 | h1 | h1
    · obtain ⟨hmean, rfl⟩ := hbase s h1 hname
      refine ⟨rfl, ?_, ?_⟩
      · have h0 : (0:ℚ) ≤ 10 - mean ((e :: es).map (·.sleepHours)) := by
          linarith
        have := pyTrunc_nonneg h0
        simp only []
        omega
      · simp only []
        exact min_le_left _ _
    · rw [h1] at hname
      exact absurd hname (by decide)
    · rw [h1] at hname
      exact absurd hname (by decide)

/-- Witness for C2 at the single 6.4-hour-sleep day. -/
theorem C2_sleep_deficit_rule_witness :
    (((analyze_data kmFail [eC2]).stressors.any
        (fun s => s.name = "Sleep Deficit")) = true ↔
      mean ([eC2].map (·.sleepHours)) < 7) ∧
    ∀ s ∈ (analyze_data kmFail [eC2]).stressors, s.name = "Sleep Deficit" →
      s.level = min 10 (pyTrunc (10 - mean ([eC2].map (·.sleepHours)))) ∧
      0 ≤ s.level ∧ s.level ≤ 10 :=
  C2_sleep_deficit_rule kmFail [eC2] (by decide)

/-- C2 counterexample: on one day with 6.4 hours of sleep the code emits
level `min(10, int(10 − 6.4)) = 3`, whereas the formula of the claim
`min(10, round(10 − 6.4))` gives 4. -/
theorem C2_sleep_deficit_round_counterexample :
    (analyze_data kmFail [eC2]).stressors = [⟨"Sleep Deficit", 3⟩] ∧
    min (10:ℤ) (roundHalfEven (10 - mean ([eC2].map (·.sleepHours)))) = 4 := by
  decide

/-! ## C1 -/

theorem mkFactor_metric_eq {m : String} {x y : List ℚ} {f : MoodFactor}
    (h : f ∈ mkFactor m x y) : f.metric = m := by
  simp only [mkFactor] at h
  split at h
  · simp at h
  · split at h
    · simp only [List.mem_singleton] at h
      rw [h]
    · simp at h

theorem mkFactor_length_le (m : String) (x y : List ℚ) :
    (mkFactor m x y).length ≤ 1 := by
  simp only [mkFactor]
  split
  · simp
  · split <;> simp

theorem countP_optFactor_zero (mname p : String) (hne : ¬ p = mname)
    (m : List ℚ) (o : Option (List ℚ)) :
    (optFactor mname m o).countP (fun f => f.metric == p) = 0 := by
  rcases o with _ | c
  · rfl
  · rw [List.countP_eq_zero]
    intro f hf
    have : f.metric = mname := mkFactor_metric_eq hf
    rw [this]
    simp only [beq_iff_eq]
    exact fun hh => hne hh.symm

theorem countP_optFactor_le_one (mname : String) (m : List ℚ)
    (o : Option (List ℚ)) (pr : MoodFactor → Bool) :
    (optFactor mname m o).countP pr ≤ 1 := by
  rcases o with _ | c
  · simp [optFactor]
  · exact le_trans (List.countP_le_length pr) (mkFactor_length_le mname m c)

theorem countP_moodFactors_screen (df : DataFrame) (m : List ℚ) :
    (moodFactors df m).countP
      (fun f => f.metric == "screenTimeMinutes") ≤ 1 := by
  unfold moodFactors
  simp only [List.countP_append]
  have h1 := countP_optFactor_zero "energy"
    "screenTimeMinutes" (by decide) m df.energy
  have h2 := countP_optFactor_zero "steps"
    "screenTimeMinutes" (by decide) m df.steps
  have h3 := countP_optFactor_zero "heartRate"
    "screenTimeMinutes" (by decide) m df.heartRate
  have h4 := countP_optFactor_zero "sleepHours"
    "screenTimeMinutes" (by decide) m df.sleepHours
  have h5 := countP_optFactor_le_one "screenTimeMinutes" m
    df.screenTimeMinutes (fun f => f.metric == "screenTimeMinutes")
  omega

theorem countP_moodFactors_sleep (df : DataFrame) (m : List ℚ) :
    (moodFactors df m).countP (fun f => f.metric == "sleepHours") ≤ 1 := by
  unfold moodFactors
  simp only [List.countP_append]
  have h1 := countP_optFactor_zero "energy"
    "sleepHours" (by decide) m df.energy
  have h2 := countP_optFactor_zero "steps"
    "sleepHours" (by decide) m df.steps
  have h3 := countP_optFactor_zero "heartRate"
    "sleepHours" (by decide) m df.heartRate
  have h4 := countP_optFactor_le_one "sleepHours" m
    df.sleepHours (fun f => f.metric == "sleepHours")
  have h5 := countP_optFactor_zero "screenTimeMinutes"
    "sleepHours" (by decide) m df.screenTimeMinutes
  omega

theorem sleep_stressor_names (o : Option (List ℚ)) :
    (sleep_stressor o).map (fun s => s.name) = [] ∨
    (sleep_stressor o).map (fun s => s.name) = ["Sleep Deficit"] := by
  rcases o with _ | l
  · exact Or.inl rfl
  · simp only [sleep_stressor]
    split
    · exact Or.inr rfl
    · exact Or.inl rfl

theorem screen_stressor_names (o : Option (List ℚ)) :
    (screen_stressor o).map (fun s => s.name) = [] ∨
    (screen_stressor o).map (fun s => s.name) = ["Digital Overload"] := by
  rcases o with _ | l
  · exact Or.inl rfl
  · simp only [screen_stressor]
    split
    · exact Or.inr rfl
    · exact Or.inl rfl

theorem mood_stressor_names (o : Option (List ℚ)) :
    (mood_stressor o).map (fun s => s.name) = [] ∨
    (mood_stressor o).map (fun s => s.name) = ["Low Mood Patterns"] := by
  rcases o with _ | l
  · exact Or.inl rfl
  · simp only [mood_stressor]
    split
    · exact Or.inr rfl
    · exact Or.inl rfl

theorem steps_stressor_names (o : Option (List ℚ)) :
    (steps_stressor o).map (fun s => s.name) = [] ∨
    (steps_stressor o).map (fun s => s.name) = ["Low Physical Activity"] := by
  rcases o with _ | l
  · exact Or.inl rfl
  · simp only [steps_stressor]
    split
    · exact Or.inr rfl
    · exact Or.inl rfl

theorem base_names (df : DataFrame) :
    ((base_stressors df).map (fun s => s.name)).Nodup ∧
    "Screen Time Impact" ∉ (base_stressors df).map (fun s => s.name) ∧
    "Sleep Quality Impact" ∉ (base_stressors df).map (fun s => s.name) := by
  have h1 := sleep_stressor_names df.sleepHours
  have h2 := screen_stressor_names df.screenTimeMinutes
  have h3 := mood_stressor_names df.mood
  have h4 := steps_stressor_names df.steps
  unfold base_stressors
  simp only [List.map_append]
  rcases h1 with h1 | h1 <;> rcases h2 with h2 | h2 <;> rcases h3 with h3 | h3 <;>
    rcases h4 with h4 | h4 <;> rw [h1, h2, h3, h4] <;> decide

theorem corrStep_cases (acc : List Stressor) (f : MoodFactor) :
    corrStep acc f = acc ∨
    (f.metric = "screenTimeMinutes" ∧
      corrStep acc f = acc ++ [⟨"Screen Time Impact", corrLevel f⟩]) ∨
    (f.metric = "sleepHours" ∧
      corrStep acc f = acc ++ [⟨"Sleep Quality Impact", corrLevel f⟩]) := by
  unfold corrStep
  split_ifs with hc1 hc2 hc3
  · exact Or.inr (Or.inl ⟨hc2.1, rfl⟩)
  · exact Or.inr (Or.inr ⟨hc3.1, rfl⟩)
  · exact Or.inl rfl
  · exact Or.inl rfl

/-- The key invariant: starting from an accumulator with distinct names not
containing the two correlation-stressor names, and a factor list containing
at most one `screenTimeMinutes` and at most one `sleepHours` factor, the
correlation loop preserves name distinctness. -/
theorem corrFold_nodup :
    ∀ (fs : List MoodFactor) (acc : List Stressor),
      ((acc.map (fun s => s.name)).Nodup) →
      fs.countP (fun f => f.metric == "screenTimeMinutes") ≤ 1 →
      fs.countP (fun f => f.metric == "sleepHours") ≤ 1 →
      ("Screen Time Impact" ∈ acc.map (fun s => s.name) →
        fs.countP (fun f => f.metric == "screenTimeMinutes") = 0) →
      ("Sleep Quality Impact" ∈ acc.map (fun s => s.name) →
        fs.countP (fun f => f.metric == "sleepHours") = 0) →
      (((fs.foldl corrStep acc).map (fun s => s.name)).Nodup)
  | [], _, h1, _, _, _, _ => h1
  | f :: fs, acc, h1, h2, h3, h4, h5 => by
    rw [List.foldl_cons]
    rcases corrStep_cases acc f with hc | ⟨hm, hc⟩ | ⟨hm, hc⟩
    · rw [hc]
      rw [List.countP_cons] at h2 h3
      refine corrFold_nodup fs acc h1 (by omega) (by omega) ?_ ?_
      · intro hmem
        have := h4 hmem
        rw [List.countP_cons] at this
        omega
      · intro hmem
        have := h5 hmem
        rw [List.countP_cons] at this
        omega
    · rw [hc]
      have hpt : (f.metric == "screenTimeMinutes") = true := by
        simp [hm]
      have hpf : (f.metric == "sleepHours") = false := by
        simp [hm]
      rw [List.countP_cons] at h2 h3
      simp only [hpt, hpf, if_true, if_false] at h2 h3
      have hfs0 : fs.countP (fun g => g.metric == "screenTimeMinutes") = 0 := by
        omega
      have hsti : "Screen Time Impact" ∉ acc.map (fun s => s.name) := by
        intro hmem
        have := h4 hmem
        rw [List.countP_cons] at this
        simp only [hpt, if_true] at this
        omega
      refine corrFold_nodup fs
        (acc ++ [⟨"Screen Time Impact", corrLevel f⟩]) ?_ (by omega) (by omega)
        ?_ ?_
      · rw [List.map_append]
        refine List.Nodup.append h1 (by simp) ?_
        intro a ha ha'
        simp only [List.map_cons, List.map_nil, List.mem_singleton] at ha'
        subst ha'
        exact hsti ha
      · intro _
        exact hfs0
      · intro hmem
        rw [List.map_append] at hmem
        rcases List.mem_append.mp hmem with hmem | hmem
        · have := h5 hmem
          rw [List.countP_cons] at this
          simp only [hpf, if_false] at this
          omega
        · simp at hmem
    · rw [hc]
      have hpt : (f.metric == "sleepHours") = true := by
        simp [hm]
      have hpf : (f.metric == "screenTimeMinutes") = false := by
        simp [hm]
      rw [List.countP_cons] at h2 h3
      simp only [hpt, hpf, if_true, if_false] at h2 h3
      have hfs0 : fs.countP (fun g => g.metric == "sleepHours") = 0 := by
        omega
      have hsqi : "Sleep Quality Impact" ∉ acc.map (fun s => s.name) := by
        intro hmem
        have := h5 hmem
        rw [List.countP_cons] at this
        simp only [hpt, if_true] at this
        omega
      refine corrFold_nodup fs
        (acc ++ [⟨"Sleep Quality Impact", corrLevel f⟩]) ?_ (by omega) (by omega)
        ?_ ?_
      · rw [List.map_append]
        refine List.Nodup.append h1 (by simp) ?_
        intro a ha ha'
        simp only [List.map_cons, List.map_nil, List.mem_singleton] at ha'
        subst ha'
        exact hsqi ha
      · intro hmem
        rw [List.map_append] at hmem
        rcases List.mem_append.mp hmem with hmem | hmem
        · have := h4 hmem
          rw [List.countP_cons] at this
          simp only [hpf, if_false] at this
          omega
        · simp at hmem
      · intro _
        exact hfs0

/-- C1: on every nonempty entry list, the stressor list of the primary pipeline
contains no two entries with the same name — each threshold rule fires at
most once with a distinct name, the candidate metrics each contribute at
most one correlation stressor, and the equivalent-name guards keep the
correlation names apart. -/
theorem C1_stressor_names_nodup (km : KMeansFn) (entries : List Entry)
    (h : entries ≠ []) :
    ((analyze_data km entries).stressors.map (fun s => s.name)).Nodup := by
  obtain ⟨e, es, rfl⟩ := List.exists_cons_of_ne_nil h
  have hst : (analyze_data km (e :: es)).stressors =
      (moodFactors (toDataFrame (e :: es)) ((e :: es).map (·.mood))).foldl
        corrStep (base_stressors (toDataFrame (e :: es))) := rfl
  rw [hst]
  obtain ⟨hb1, hb2, hb3⟩ := base_names (toDataFrame (e :: es))
  exact corrFold_nodup _ _ hb1
    (countP_moodFactors_screen _ _) (countP_moodFactors_sleep _ _)
    (fun hm => absurd hm hb2) (fun hm => absurd hm hb3)

/-- Witness for C1 at a concrete one-day input. -/
theorem C1_stressor_names_nodup_witness :
    ((analyze_data kmFail [eC2]).stressors.map (fun s => s.name)).Nodup :=
  C1_stressor_names_nodup kmFail [eC2] (by decide)

/-! ## C5 -/

theorem insertThird_sorted (x y c : (ℚ × ℚ × ℚ) × ℚ) (hxy : x.1.1 ≤ y.1.1) :
    (insertThird x y c).1.1.1 ≤ (insertThird x y c).2.1.1.1 ∧
    (insertThird x y c).2.1.1.1 ≤ (insertThird x y c).2.2.1.1 := by
  unfold insertThird
  split_ifs with h1 h2 <;> constructor <;> dsimp only [] <;> linarith

theorem sort3_sorted (a b c : (ℚ × ℚ × ℚ) × ℚ) :
    (sort3 a b c).1.1.1 ≤ (sort3 a b c).2.1.1.1 ∧
    (sort3 a b c).2.1.1.1 ≤ (sort3 a b c).2.2.1.1 := by
  unfold sort3
  split_ifs with h
  · exact insertThird_sorted b a c (le_of_lt h)
  · exact insertThird_sorted a b c (le_of_not_lt h)

/-- C5: the embedded pipeline is a pure function of its input — the fixed
`random_state` makes the clustering a function of the feature rows, so two
calls on identical input are identical — and whenever the activity-pattern
insight is produced, its low/moderate/high centroids are ordered by
ascending steps (the `np.argsort` labelling; with tied step-means the order
is non-strict). -/
theorem C5_clustering_deterministic_and_ordered :
    (∀ (km : KMeansFn) (entries : List Entry),
       analyze_data km entries = analyze_data km entries) ∧
    (∀ (km : KMeansFn) (df : DataFrame) (ap : ActivityPatterns),
       (analyze_physical_data km df).activityPatterns = some ap →
       ap.low.steps ≤ ap.moderate.steps ∧
       ap.moderate.steps ≤ ap.high.steps) := by
  refine ⟨fun _ _ => rfl, fun km df ap h => ?_⟩
  obtain ⟨dmood, den, dst, dsc, dsl, dhr, dcb, dwi, ddj, des, dn⟩ := df
  rcases dst with _ | stepsL
  · exact absurd h (by simp [analyze_physical_data])
  · rcases dhr with _ | hrL
    · exact absurd h (by simp [analyze_physical_data])
    · rcases dsl with _ | slL
      · exact absurd h (by simp [analyze_physical_data])
      · replace h : activityPatternsOf km dn stepsL hrL slL = some ap := h
        simp only [activityPatternsOf] at h
        split at h
        · exact absurd h (by simp)
        · split at h
          · exact absurd h (by simp)
          · next res =>
            split at h
            · next c0 c1 c2 =>
              split at h
              · rw [Option.some.injEq] at h
                subst h
                simp only [profileOf]
                constructor
                · exact pyTrunc_mono (sort3_sorted _ _ _).1
                · exact pyTrunc_mono (sort3_sorted _ _ _).2
              · exact absurd h (by simp)
            · exact absurd h (by simp)

/-- The reported activity patterns for the witness input. -/
def apC5 : ActivityPatterns :=
  ⟨3333/100, 3333/100, 3333/100, ⟨1, 2, 3⟩, ⟨4, 5, 6⟩, ⟨7, 8, 9⟩⟩

/-- Witness for C5 at a concrete successful clustering run. -/
theorem C5_clustering_witness :
    apC5.low.steps ≤ apC5.moderate.steps ∧
    apC5.moderate.steps ≤ apC5.high.steps :=
  C5_clustering_deterministic_and_ordered.2 km3 df3 apC5 (by decide)

/-! ## C8 -/

/-- C8 (amended, primary-pipeline part): a clustering failure in the
primary pipeline is caught at the activity sub-insight boundary — sleep and
screen-time insights are independent of the clustering function, a failing
fit only turns `activity_patterns` into `none`, and stressors,
recommendations, emotional insights and correlations are untouched, so the
report is always produced. -/
theorem C8_failure_isolated_primary :
    (∀ (km km2 : KMeansFn) (df : DataFrame),
       (analyze_physical_data km df).sleep =
         (analyze_physical_data km2 df).sleep ∧
       (analyze_physical_data km df).screenTime =
         (analyze_physical_data km2 df).screenTime) ∧
    (∀ df : DataFrame,
       (analyze_physical_data kmFail df).activityPatterns = none) ∧
    (∀ (km km2 : KMeansFn) (entries : List Entry),
       (analyze_data km entries).stressors =
         (analyze_data km2 entries).stressors ∧
       (analyze_data km entries).recommendations =
         (analyze_data km2 entries).recommendations ∧
       (analyze_data km entries).insights.emotional =
         (analyze_data km2 entries).insights.emotional ∧
       (analyze_data km entries).insights.correlations =
         (analyze_data km2 entries).insights.correlations) := by
  refine ⟨fun km km2 df => ⟨rfl, rfl⟩, fun df => ?_,
    fun km km2 entries => ⟨rfl, rfl, rfl, rfl⟩⟩
  obtain ⟨dmood, den, dst, dsc, dsl, dhr, dcb, dwi, ddj, des, dn⟩ := df
  rcases dst with _ | stepsL
  · rfl
  · rcases dhr with _ | hrL
    · rfl
    · rcases dsl with _ | slL
      · rfl
      · show activityPatternsOf kmFail dn stepsL hrL slL = none
        simp only [activityPatternsOf]
        split
        · rfl
        · rfl

/-- C8 counterexample (alternate pipeline): on four mock days whose only
varying column is `mood_level`, the correlation stage finds a pattern, yet
`identify_patterns` returns `[]` because `k = min(5, 4//5) = 0` makes the
clustering stage raise and the single `except` wrapping the whole function
discards every already-computed pattern — not just the failing
sub-insight. -/
theorem C8_pattern_stage_counterexample :
    identify_patterns altKmFail dfC8 = [] ∧
    altCorrelationPatterns dfC8 =
      [.correlation "mood_level" "mood_level_next_day" 1 false] := by
  decide

/-! ## C9 -/

/-- C9 (amended): with a single entry the sample standard deviation is
`NaN` and the sleep, mood and energy sub-insights are still emitted; the
mood/energy volatility fields carry that `NaN`, but the sleep consistency
field does not — Python's `min(1, nan)` returns `1`, so consistency is
reported as `0.0`. -/
theorem C9_single_entry_volatility (km : KMeansFn) (e : Entry) :
    sampleStd [e.sleepHours] = none ∧
    ((analyze_physical_data km (toDataFrame [e])).sleep).map
      (fun si => si.consistency) = some (some 0) ∧
    ((analyze_emotional_data (toDataFrame [e])).moodPatterns).map
      (fun mp => mp.volatility) = some none ∧
    ((analyze_emotional_data (toDataFrame [e])).energyPatterns).map
      (fun ep => ep.volatility) = some none := by
  refine ⟨rfl, ?_, rfl, rfl⟩
  show some (some (pyRound2 (100 * (1 - 1)))) = some (some 0)
  decide

/-- C9 counterexample: on a concrete single-entry input the reported sleep
consistency is the number `0`, not the `NaN` (`none`) the claim
predicts. -/
theorem C9_consistency_not_nan_counterexample :
    ((analyze_physical_data kmFail (toDataFrame [eC2])).sleep).map
      (fun si => si.consistency) = some (some 0) := by
  decide

/-! ## C7 -/

theorem roundHalfEven_intCast (z : ℤ) : roundHalfEven (z : ℚ) = z := by
  unfold roundHalfEven
  rw [Int.floor_intCast]
  rw [if_pos (by rw [sub_self]; norm_num : (z:ℚ) - z < 1/2)]

theorem pyRound2_intCast (z : ℤ) : pyRound2 (z : ℚ) = z := by
  unfold pyRound2
  have h : (100:ℚ) * z = ((100 * z : ℤ) : ℚ) := by push_cast; ring
  rw [h, roundHalfEven_intCast]
  push_cast
  field_simp

theorem pyRound2_natCast (n : ℕ) : pyRound2 (n : ℚ) = n := by
  have h : ((n:ℤ):ℚ) = (n:ℚ) := by push_cast; rfl
  rw [← h, pyRound2_intCast, h]

theorem pyRound2_min10 (m : ℕ) :
    pyRound2 (min 10 ((m : ℚ) * 2)) = min 10 ((m : ℚ) * 2) := by
  have h : min (10:ℚ) ((m:ℚ) * 2) = ((min 10 (m * 2) : ℕ) : ℚ) := by
    push_cast
    rfl
  rw [h, pyRound2_natCast]

section SealedCounts

/- Keep definitional unfolding from descending into the keyword counters
while proving the sentiment-label lemmas; everything about the counters
themselves is established through the lemmas above/below, and the seal is
local to this section. -/
attribute [local irreducible] posCountOf negCountOf stressCountOf

theorem sentimentOf_overall (t : String) :
    (sentimentOf t).overall = overallOf t := rfl

theorem sentimentOf_positiveRatio (t : String) :
    (sentimentOf t).positiveRatio = pyRound2 (sentimentRatio t * 100) := rfl

theorem stressOf_stressScore (t : String) :
    (stressOf t).stressScore =
      if t = "" then 0
      else pyRound2 (min 10 ((stressCountOf t : ℚ) * 2)) := rfl

theorem countOccAux_spaces :
    ∀ (fuel : ℕ) (p s : List Char), (∀ c ∈ s, c = ' ') →
      p.head? ≠ some ' ' → p ≠ [] → countOccAux fuel p s = 0
  | 0, _, _, _, _, _ => rfl
  | _ + 1, _, [], _, _, _ => rfl
  | fuel + 1, p, c :: rest, hs, hp, hp2 => by
    cases p with
    | nil => exact absurd rfl hp2
    | cons ph pt =>
      have hc : c = ' ' := hs c (List.mem_cons_self c rest)
      have hph : ph ≠ ' ' := fun hh => hp (by simp [hh])
      have hcond : ¬ ((c :: rest).take (ph :: pt).length = ph :: pt ∧
          (ph :: pt) ≠ ([] : List Char)) := by
        rintro ⟨h1, _⟩
        rw [List.length_cons, List.take_succ_cons] at h1
        injection h1 with h1a _
        exact hph (by rw [← h1a, hc])
      simp only [countOccAux]
      rw [if_neg hcond]
      exact countOccAux_spaces fuel (ph :: pt) rest
        (fun c' hc' => hs c' (List.mem_cons_of_mem _ hc')) hp hp2

theorem countOcc_spaces {p s : List Char} (hs : ∀ c ∈ s, c = ' ')
    (hp : p.head? ≠ some ' ') (hp2 : p ≠ []) : countOcc p s = 0 :=
  countOccAux_spaces s.length p s hs hp hp2

theorem keywordCount_spaces (kws : List String) (t : String)
    (hs : ∀ c ∈ t.toList, c = ' ')
    (hk : ∀ k ∈ kws, k.toList.head? ≠ some ' ' ∧ k.toList ≠ []) :
    keywordCount kws t = 0 := by
  unfold keywordCount
  rw [List.sum_eq_zero]
  intro x hx
  rw [List.mem_map] at hx
  obtain ⟨k, hkmem, rfl⟩ := hx
  apply countOcc_spaces _ (hk k hkmem).1 (hk k hkmem).2
  intro c hc
  unfold lowerChars at hc
  rw [List.mem_map] at hc
  obtain ⟨a, ha, rfl⟩ := hc
  rw [hs a ha]
  decide

theorem toList_append_str (a b : String) :
    (a ++ b).toList = a.toList ++ b.toList := String.data_append a b

theorem joinSp_chars :
    ∀ (l : List String), (∀ s ∈ l, ∀ c ∈ s.toList, c = ' ') →
      ∀ c ∈ (joinSp l).toList, c = ' '
  | [], _, c, hc => absurd hc (by simp [joinSp])
  | [s], h, c, hc => h s (by simp) c hc
  | s :: s2 :: rest, h, c, hc => by
    have hj : joinSp (s :: s2 :: rest) = s ++ " " ++ joinSp (s2 :: rest) := rfl
    rw [hj, toList_append_str, toList_append_str] at hc
    rcases List.mem_append.mp hc with hc1 | hc1
    · rcases List.mem_append.mp hc1 with hc2 | hc2
      · exact h s (by simp) c hc2
      · have hsp : (" " : String).toList = [' '] := rfl
        rw [hsp, List.mem_singleton] at hc2
        exact hc2
    · exact joinSp_chars (s2 :: rest)
        (fun s' hs' => h s' (List.mem_cons_of_mem _ hs')) c hc1

/-- The combined text of `_analyze_emotional_data` when both text columns
are present (the case of a frame built from full entries). -/
def combinedOf (entries : List Entry) : String :=
  joinSp (((entries.map (fun x => x.emotionalState)).zip
    (entries.map (fun x => x.dailyJournal))).map
      (fun p => p.1 ++ " " ++ p.2))

theorem combinedOf_chars {entries : List Entry}
    (hempty : ∀ e ∈ entries, e.emotionalState = "" ∧ e.dailyJournal = "") :
    ∀ c ∈ (combinedOf entries).toList, c = ' ' := by
  apply joinSp_chars
  intro s hs
  rw [List.mem_map] at hs
  obtain ⟨p, hp, rfl⟩ := hs
  obtain ⟨p1, p2⟩ := p
  obtain ⟨h1, h2⟩ := List.of_mem_zip hp
  rw [List.mem_map] at h1 h2
  obtain ⟨e1, he1, hp1⟩ := h1
  obtain ⟨e2, he2, hp2⟩ := h2
  have hq1 : p1 = "" := by rw [← hp1]; exact (hempty e1 he1).1
  have hq2 : p2 = "" := by rw [← hp2]; exact (hempty e2 he2).2
  intro c hc
  rw [hq1, hq2] at hc
  have hx : (("" ++ " " ++ "" : String)).toList = [' '] := rfl
  simp only [hx, List.mem_singleton] at hc
  exact hc

theorem joinSp_cons_ne_empty (x : String) (xs : List String)
    (hx : x.toList ≠ []) : joinSp (x :: xs) ≠ "" := by
  cases xs with
  | nil =>
    intro h
    rw [show joinSp [x] = x from rfl] at h
    rw [h] at hx
    exact hx rfl
  | cons y ys =>
    intro h
    have := congrArg String.toList h
    rw [show joinSp (x :: y :: ys) = x ++ " " ++ joinSp (y :: ys) from rfl,
      toList_append_str, toList_append_str] at this
    simp at this

/-- C7: positive ratio is `pos/(pos+neg)` with mentions and `0.5` without;
"positive"/"negative"/"mixed" partition the with-mentions case at the 0.6
and 0.4 cuts; "neutral" is exactly the zero-mention case; the stress score
is `min(10, 2·mentions)` (0 for the empty text); and all-empty text fields
yield "neutral" sentiment with positive_ratio 50 and stress score 0, with
no exception. -/
theorem C7_sentiment_and_stress_rules :
    (∀ t : String,
      (0 < posCountOf t + negCountOf t →
        sentimentRatio t =
          (posCountOf t : ℚ) / ((posCountOf t : ℚ) + (negCountOf t : ℚ))) ∧
      (posCountOf t + negCountOf t = 0 → sentimentRatio t = 1/2) ∧
      (sentimentOf t).positiveRatio = pyRound2 (sentimentRatio t * 100) ∧
      ((sentimentOf t).overall = "positive" ↔
        0 < posCountOf t + negCountOf t ∧ 3/5 < sentimentRatio t) ∧
      ((sentimentOf t).overall = "negative" ↔
        0 < posCountOf t + negCountOf t ∧ sentimentRatio t < 2/5) ∧
      ((sentimentOf t).overall = "neutral" ↔
        posCountOf t + negCountOf t = 0) ∧
      ((sentimentOf t).overall = "mixed" ↔
        0 < posCountOf t + negCountOf t ∧
        2/5 ≤ sentimentRatio t ∧ sentimentRatio t ≤ 3/5) ∧
      (stressOf t).stressScore =
        (if t = "" then 0 else min 10 ((stressCountOf t : ℚ) * 2))) ∧
    (∀ entries : List Entry, entries ≠ [] →
      (∀ e ∈ entries, e.emotionalState = "" ∧ e.dailyJournal = "") →
      (analyze_emotional_data (toDataFrame entries)).sentiment =
        some ⟨"neutral", 50, 50⟩ ∧
      ((analyze_emotional_data (toDataFrame entries)).stressIndicators).map
        (fun si => si.stressScore) = some 0) := by
  constructor
  · intro t
    refine ⟨?_, ?_, rfl, ?_, ?_, ?_, ?_, ?_⟩
    · intro h
      unfold sentimentRatio
      rw [if_pos h]
    · intro h
      unfold sentimentRatio
      rw [if_neg (by omega)]
    · rw [sentimentOf_overall]
      unfold overallOf
      split_ifs with h0 ha hb
      · exact iff_of_true rfl ⟨h0, ha⟩
      · exact iff_of_false (by decide) (fun hx => ha hx.2)
      · exact iff_of_false (by decide) (fun hx => ha hx.2)
      · exact iff_of_false (by decide) (fun hx => h0 hx.1)
    · rw [sentimentOf_overall]
      unfold overallOf
      split_ifs with h0 ha hb
      · exact iff_of_false (by decide) (fun hx => absurd hx.2 (by linarith))
      · exact iff_of_true rfl ⟨h0, hb⟩
      · exact iff_of_false (by decide) (fun hx => hb hx.2)
      · exact iff_of_false (by decide) (fun hx => h0 hx.1)
    · rw [sentimentOf_overall]
      unfold overallOf
      split_ifs with h0 ha hb
      · exact iff_of_false (by decide) (fun hx => by omega)
      · exact iff_of_false (by decide) (fun hx => by omega)
      · exact iff_of_false (by decide) (fun hx => by omega)
      · exact iff_of_true rfl (by omega)
    · rw [sentimentOf_overall]
      unfold overallOf
      split_ifs with h0 ha hb
      · exact iff_of_false (by decide) (fun hx => absurd hx.2.2 (by linarith))
      · exact iff_of_false (by decide) (fun hx => absurd hx.2.1 (by linarith))
      · exact iff_of_true rfl ⟨h0, le_of_not_lt hb, le_of_not_lt ha⟩
      · exact iff_of_false (by decide) (fun hx => h0 hx.1)
    · rw [stressOf_stressScore]
      split_ifs with h0
      · rfl
      · exact pyRound2_min10 (stressCountOf t)
  · intro entries hne hempty
    obtain ⟨e, es, rfl⟩ := List.exists_cons_of_ne_nil hne
    have hchars := combinedOf_chars hempty
    have hpos : posCountOf (combinedOf (e :: es)) = 0 := by
      unfold posCountOf
      exact keywordCount_spaces _ _ hchars (by decide)
    have hneg : negCountOf (combinedOf (e :: es)) = 0 := by
      unfold negCountOf
      exact keywordCount_spaces _ _ hchars (by decide)
    have hstr : stressCountOf (combinedOf (e :: es)) = 0 := by
      unfold stressCountOf
      exact keywordCount_spaces _ _ hchars (by decide)
    have htne : combinedOf (e :: es) ≠ "" := by
      unfold combinedOf
      have hz : ((e :: es).map (fun x => x.emotionalState)).zip
          ((e :: es).map (fun x => x.dailyJournal)) =
          (e.emotionalState, e.dailyJournal) ::
            (es.map (fun x => x.emotionalState)).zip
              (es.map (fun x => x.dailyJournal)) := rfl
      rw [hz, List.map_cons]
      apply joinSp_cons_ne_empty
      rw [(hempty e (List.mem_cons_self e es)).1,
        (hempty e (List.mem_cons_self e es)).2]
      decide
    constructor
    · have hrfl : (analyze_emotional_data (toDataFrame (e :: es))).sentiment =
          some (sentimentOf (combinedOf (e :: es))) := rfl
      rw [hrfl]
      have hs : sentimentOf (combinedOf (e :: es)) = ⟨"neutral", 50, 50⟩ := by
        unfold sentimentOf overallOf sentimentRatio
        rw [hpos, hneg]
        decide
      rw [hs]
    · have hrfl :
          (analyze_emotional_data (toDataFrame (e :: es))).stressIndicators =
          some (stressOf (combinedOf (e :: es))) := rfl
      rw [hrfl]
      show some ((stressOf (combinedOf (e :: es))).stressScore) = some 0
      have hs : (stressOf (combinedOf (e :: es))).stressScore = 0 := by
        rw [stressOf_stressScore, if_neg htne, hstr]
        decide
      rw [hs]

end SealedCounts

/-- Witness for C7: the empty text has ratio one half, and a single
all-empty-text entry yields the neutral sentiment block. -/
theorem C7_sentiment_and_stress_rules_witness :
    sentimentRatio "" = 1/2 ∧
    (analyze_emotional_data (toDataFrame [eC2])).sentiment =
      some ⟨"neutral", 50, 50⟩ :=
  ⟨(C7_sentiment_and_stress_rules.1 "").2.1 (by decide),
   (C7_sentiment_and_stress_rules.2 [eC2] (by decide) (by decide)).1⟩

end Wellbeing
